import Mathlib

/-!
# Verification of the windowed-list controller (`src/dashboardv2/src/WindowedList.tsx`)

Shallow embedding of the windowing controller from `WindowedList.tsx`.
JavaScript numbers that can become NaN (heights, which flow through
`parseFloat`) are modelled by `JSNum`; pixel quantities that are always
real numbers (scroll offsets, rectangle coordinates) are modelled by `ℚ`.
DOM elements are modelled by an inductive ancestor chain; DOM node
identity (needed for event-listener bookkeeping) is modelled by a numeric
id. The mutable `Map` objects of the component are modelled by
insertion-ordered association lists whose `set` overwrites an existing
key, matching JavaScript `Map` semantics for the operations used.
-/

namespace WindowedList

/-- A JavaScript number restricted to the values that arise here: either a
rational or NaN (the result of a failed `parseFloat`). -/
inductive JSNum where
  | nan : JSNum
  | num (q : ℚ) : JSNum
deriving DecidableEq, Repr

/-- JavaScript addition on `JSNum`: NaN is absorbing. -/
def JSNum.add : JSNum → JSNum → JSNum
  | JSNum.num a, JSNum.num b => JSNum.num (a + b)
  | _, _ => JSNum.nan

/-- Longest leading run of decimal digits of a character list, and the rest. -/
def takeDigits : List Char → List Char × List Char
  | [] => ([], [])
  | c :: cs =>
    if c.isDigit then
      let (d, r) := takeDigits cs
      (c :: d, r)
    else ([], c :: cs)

/-- The natural number denoted by a list of decimal digits. -/
def digitsToNat (ds : List Char) : ℕ :=
  ds.foldl (fun acc c => 10 * acc + (c.toNat - 48)) 0

/-- The fractional value denoted by a list of decimal digits read after a
decimal point. -/
def fracVal (ds : List Char) : ℚ :=
  ds.foldr (fun c acc => ((c.toNat - 48 : ℚ) + acc) / 10) 0

/-- Model of JavaScript `parseFloat`, restricted to optionally signed
decimal literals (with optional fractional part and trailing junk ignored,
as `parseFloat` does): any string without a leading numeric
prefix parses to NaN. -/
def parseFloat (s : String) : JSNum :=
  let cs := s.data.dropWhile (fun c => c = ' ')
  let signRest : ℚ × List Char :=
    match cs with
    | '-' :: r => (-1, r)
    | '+' :: r => (1, r)
    | _ => (1, cs)
  let (ip, cs') := takeDigits signRest.2
  let fp : List Char :=
    match cs' with
    | '.' :: r => (takeDigits r).1
    | _ => []
  if ip.isEmpty ∧ fp.isEmpty then JSNum.nan
  else JSNum.num (signRest.1 * ((digitsToNat ip : ℚ) + fracVal fp))

/-- A client rectangle (`DOMRect`), restricted to the fields the component
reads. -/
structure Rect where
  top : ℚ
  height : ℚ
deriving DecidableEq, Repr

/-- A DOM element, restricted to what the component observes: its computed
`overflow-y`, its computed margins (as the strings `getPropertyValue`
returns), its client rectangles, and its parent element. The numeric `id`
models DOM node identity. The real DOM tree is finite and acyclic, which
the inductive definition captures. -/
inductive Element where
  | mk (id : ℕ) (overflowY : String) (marginTop marginBottom : String)
      (rects : List Rect) (parent : Option Element)

/-- Node identity. -/
def Element.id : Element → ℕ
  | Element.mk i _ _ _ _ _ => i

/-- Computed `overflow-y` style. -/
def Element.overflowY : Element → String
  | Element.mk _ o _ _ _ _ => o

/-- Computed `margin-top` style string. -/
def Element.marginTop : Element → String
  | Element.mk _ _ mt _ _ _ => mt

/-- Computed `margin-bottom` style string. -/
def Element.marginBottom : Element → String
  | Element.mk _ _ _ mb _ _ => mb

/-- The element's client rectangles (`getClientRects()`). -/
def Element.rects : Element → List Rect
  | Element.mk _ _ _ _ rs _ => rs

/-- The element's `parentElement`. -/
def Element.parent : Element → Option Element
  | Element.mk _ _ _ _ _ p => p

/-- The scroll anchor: either the top-level viewport (`window`) or a DOM
element. -/
inductive ScrollAnchor where
  | window : ScrollAnchor
  | elem (e : Element) : ScrollAnchor

/-- The key under which scroll listeners are registered: `none` for the
viewport, `some id` for an element, using DOM node identity. -/
def anchorKey : ScrollAnchor → Option ℕ
  | ScrollAnchor.window => none
  | ScrollAnchor.elem e => some e.id

/-- `findScrollParent` from `WindowedList.tsx`: walk up the ancestor chain
and return the first node whose computed `overflow-y` is `auto` or
`scroll`; return `window` when the chain is exhausted. -/
def findScrollParent : Option Element → ScrollAnchor
  | none => ScrollAnchor.window
  | some (Element.mk i ov mt mb rs p) =>
    if ov = "auto" then ScrollAnchor.elem (Element.mk i ov mt mb rs p)
    else if ov = "scroll" then ScrollAnchor.elem (Element.mk i ov mt mb rs p)
    else findScrollParent p

/-- An item's measured dimensions (`ItemDimensions` in the source): `top`
comes from the raw first rectangle, `height` is rectangle height plus the
two parsed margins (hence possibly NaN). -/
structure ItemDimensions where
  top : ℚ
  height : JSNum
deriving DecidableEq, Repr

/-- `calcItemDimensions` from `WindowedList.tsx`: read the first client
rectangle; if there is none, return null; otherwise return the rectangle's
top together with its height plus parsed `margin-top` and `margin-bottom`. -/
def calcItemDimensions (node : Element) : Option ItemDimensions :=
  match node.rects.head? with
  | none => none
  | some rect =>
    let margin := (parseFloat node.marginTop).add (parseFloat node.marginBottom)
    some { top := rect.top, height := (JSNum.num rect.height).add margin }

/-- Modelled from the spec: `WindowedListState` (the Position Index) is
imported from `./WindowedListState`, whose source is not in the
repository excerpt. Only what the controller observes is modelled: the
read-only window fields `visibleIndexTop` and `visibleLength`, and the
two mutators `updateScrollPosition` / `updateHeightAtIndex`, recorded as
call traces (the claims about the controller speak only about which
arguments reach these mutators, not about their internal effect). -/
structure WindowedListState where
  visibleIndexTop : ℤ
  visibleLength : ℤ
  scrollCalls : List ℚ
  heightCalls : List (ℤ × JSNum)
deriving DecidableEq, Repr

/-- Modelled from the spec: the Position Index's `updateScrollPosition`,
recorded as a trace entry of the offset it received. -/
def WindowedListState.updateScrollPosition (st : WindowedListState) (offset : ℚ) :
    WindowedListState :=
  { st with scrollCalls := st.scrollCalls ++ [offset] }

/-- Modelled from the spec: the Position Index's `updateHeightAtIndex`,
recorded as a trace entry of the index and height it received. -/
def WindowedListState.updateHeightAtIndex (st : WindowedListState) (index : ℤ)
    (height : JSNum) : WindowedListState :=
  { st with heightCalls := st.heightCalls ++ [(index, height)] }

/-- A teardown callback registered in `willUnmountFns`. The only callback
the active code registers removes the scroll listener from the discovered
anchor (the resize-observer branch in the source is commented out). -/
inductive Teardown where
  | removeScrollListener (k : Option ℕ) : Teardown
deriving DecidableEq, Repr

/-- The anchor key a teardown callback targets. -/
def Teardown.key : Teardown → Option ℕ
  | Teardown.removeScrollListener k => k

/-- JavaScript `Map.set`: overwrite the value at an existing key, else
append a new entry. -/
def mapSet {α : Type} (m : List (ℤ × α)) (k : ℤ) (v : α) : List (ℤ × α) :=
  match m with
  | [] => [(k, v)]
  | (k', v') :: rest =>
    if k' = k then (k', v) :: rest else (k', v') :: mapSet rest k v

/-- JavaScript `Map.get`: the stored value, or `none` for `undefined`. -/
def mapGet {α : Type} (m : List (ℤ × α)) (k : ℤ) : Option α :=
  match m with
  | [] => none
  | (k', v') :: rest => if k' = k then some v' else mapGet rest k

/-- The mutable state of one mounted `WindowedList` controller, together
with its registrations on the DOM: `itemDimensions` and `scrollParentRef`
are the component's memoised mutable cells, `willUnmountFns` its cleanup
list, `listeners` the scroll-event registrations it currently holds
(one entry per `addEventListener` call, keyed by anchor), and `state` the
Position Index it drives. `thresholdTop` is the caller-supplied prop. -/
structure Controller where
  thresholdTop : ℚ
  itemDimensions : List (ℤ × Option ItemDimensions)
  scrollParentRef : Option ScrollAnchor
  willUnmountFns : List Teardown
  listeners : List (Option ℕ)
  state : WindowedListState

/-- The scroll environment: the viewport's `window.scrollY` and each
element's `scrollTop`, read at scroll-event time. -/
structure ScrollEnv where
  windowScrollY : ℚ
  elemScrollTop : ℕ → ℚ

/-- `getScrollTop` from `WindowedList.tsx`: 0 when no anchor has been
discovered yet; `window.scrollY` when the anchor is the viewport; the
anchor element's own `scrollTop` otherwise. -/
def getScrollTop (env : ScrollEnv) (c : Controller) : ℚ :=
  match c.scrollParentRef with
  | none => 0
  | some ScrollAnchor.window => env.windowScrollY
  | some (ScrollAnchor.elem e) => env.elemScrollTop e.id

/-- `handleScroll` from `WindowedList.tsx`: clamp the raw offset minus
`thresholdTop` to a minimum of 0 and forward it to
`state.updateScrollPosition`. -/
def handleScroll (env : ScrollEnv) (c : Controller) : Controller :=
  let scrollTop := max 0 (getScrollTop env c - c.thresholdTop)
  { c with state := c.state.updateScrollPosition scrollTop }

/-- `onItemRender` from `WindowedList.tsx`: a null node is a no-op;
otherwise measure the node, store the result (null included) under the
index, push the height to the Position Index when measurement succeeded,
and, on the first call only (scroll-parent ref still null), discover the
scroll anchor, cache it, attach the scroll listener and register its
removal as a teardown. The resize-observer branch of the source is
entirely commented out and so contributes nothing. -/
def onItemRender (c : Controller) (index : ℤ) (node : Option Element) : Controller :=
  match node with
  | none => c
  | some node =>
    let dimensions := calcItemDimensions node
    let c1 := { c with itemDimensions := mapSet c.itemDimensions index dimensions }
    let c2 :=
      match dimensions with
      | some d => { c1 with state := c1.state.updateHeightAtIndex index d.height }
      | none => c1
    match c2.scrollParentRef with
    | none =>
      let scrollParentNode := findScrollParent node.parent
      { c2 with
        scrollParentRef := some scrollParentNode
        listeners := c2.listeners ++ [anchorKey scrollParentNode]
        willUnmountFns :=
          c2.willUnmountFns ++ [Teardown.removeScrollListener (anchorKey scrollParentNode)] }
    | some _ => c2

/-- `shouldItemRender` from `WindowedList.tsx`: true iff the index lies in
the current visible window. Pure: it reads the Position Index and touches
nothing. -/
def shouldItemRender (st : WindowedListState) (index : ℤ) : Bool :=
  decide (st.visibleIndexTop ≤ index) && decide (st.visibleIndexTop + st.visibleLength > index)

/-- `getItemDimensions` from `WindowedList.tsx`:
`itemDimensions.get(index) || null` — both `undefined` (no entry) and a
stored `null` come out as null. -/
def getItemDimensions (c : Controller) (index : ℤ) : Option ItemDimensions :=
  match mapGet c.itemDimensions index with
  | some (some d) => some d
  | _ => none

/-- Running one teardown callback: `removeEventListener` removes the first
matching registration for the anchor. -/
def applyTeardown (c : Controller) : Teardown → Controller
  | Teardown.removeScrollListener k => { c with listeners := c.listeners.erase k }

/-- The controller's unmount cleanup:
`willUnmountFns.forEach((fn) => fn())` — every registered teardown runs
exactly once, in registration order. -/
def unmount (c : Controller) : Controller :=
  c.willUnmountFns.foldl applyTeardown c

/-- A scroll event on the anchor keyed `k`: the host fires `handleScroll`
once per registration the controller holds on that anchor. -/
def dispatchScroll (env : ScrollEnv) (k : Option ℕ) (c : Controller) : Controller :=
  (c.listeners.filter (fun k' => k' == k)).foldl (fun acc _ => handleScroll env acc) c

/-- Whether an element's computed `overflow-y` marks it as a scroll
container (`auto` or `scroll`). -/
def isScrollable (e : Element) : Bool :=
  e.overflowY == "auto" || e.overflowY == "scroll"

/-- The ancestor chain starting at a node: the node itself followed by
all its ancestors, in order of increasing distance. -/
def ancestorChain : Option Element → List Element
  | none => []
  | some (Element.mk i ov mt mb rs p) => Element.mk i ov mt mb rs p :: ancestorChain p

/-- Spec-side definition of scroll-anchor discovery, following §4.1 of the
spec verbatim: the first (nearest) ancestor in the chain whose computed
vertical overflow is `auto` or `scroll`, and the top-level viewport when
no such ancestor exists. Stated independently of `findScrollParent` so the
two can be compared. -/
def specScrollAnchor (n : Option Element) : ScrollAnchor :=
  match (ancestorChain n).find? isScrollable with
  | some e => ScrollAnchor.elem e
  | none => ScrollAnchor.window

/-! ## Helper lemmas -/

/-- The height trace after a non-null `onItemRender` call: one entry is
appended exactly when measurement succeeded, carrying the measured
height. -/
theorem onItemRender_state_heightCalls (c : Controller) (i : ℤ) (e : Element) :
    (onItemRender c i (some e)).state.heightCalls =
      match calcItemDimensions e with
      | some d => c.state.heightCalls ++ [(i, d.height)]
      | none => c.state.heightCalls := by
  unfold onItemRender
  cases h : calcItemDimensions e <;> cases hr : c.scrollParentRef <;>
    simp [h, hr, WindowedListState.updateHeightAtIndex]

/-- The scroll trace is untouched by `onItemRender`. -/
theorem onItemRender_state_scrollCalls (c : Controller) (i : ℤ) (e : Element) :
    (onItemRender c i (some e)).state.scrollCalls = c.state.scrollCalls := by
  unfold onItemRender
  cases h : calcItemDimensions e <;> cases hr : c.scrollParentRef <;>
    simp [h, hr, WindowedListState.updateHeightAtIndex]

/-- The stored dimension table after a non-null `onItemRender` call: the
measurement result (null included) is written under the index, whatever
the anchor-discovery branch does. -/
theorem onItemRender_itemDimensions (c : Controller) (i : ℤ) (e : Element) :
    (onItemRender c i (some e)).itemDimensions =
      mapSet c.itemDimensions i (calcItemDimensions e) := by
  unfold onItemRender
  cases h : calcItemDimensions e <;> cases hr : c.scrollParentRef <;>
    simp [h, hr, WindowedListState.updateHeightAtIndex]

/-- Writing a key makes `mapGet` return exactly the written value. -/
theorem mapGet_mapSet_self {α : Type} (m : List (ℤ × α)) (k : ℤ) (v : α) :
    mapGet (mapSet m k v) k = some v := by
  induction m with
  | nil => simp [mapSet, mapGet]
  | cons p rest ih =>
    obtain ⟨k', v'⟩ := p
    by_cases h : k' = k <;> simp [mapSet, mapGet, h, ih]

/-- A key carried by no entry is absent from the map. -/
theorem mapGet_eq_none_of_not_mem {α : Type} (m : List (ℤ × α)) (k : ℤ)
    (h : ∀ p ∈ m, p.1 ≠ k) : mapGet m k = none := by
  induction m with
  | nil => rfl
  | cons p rest ih =>
    obtain ⟨k', v'⟩ := p
    have hk : k' ≠ k := h (k', v') (List.mem_cons_self _ _)
    simp only [mapGet, if_neg hk]
    exact ih fun q hq => h q (List.mem_cons_of_mem _ hq)

/-- Folding the teardown list over a controller whose listener
registrations match it, in order, leaves no listener attached. -/
theorem foldl_applyTeardown_listeners : ∀ (fns : List Teardown) (c : Controller),
    c.listeners = fns.map Teardown.key → (fns.foldl applyTeardown c).listeners = []
  | [], _, h => by simpa using h.symm ▸ rfl
  | Teardown.removeScrollListener k :: rest, c, h => by
    have h' : c.listeners = k :: rest.map Teardown.key := by
      simpa [Teardown.key] using h
    show (rest.foldl applyTeardown (applyTeardown c (Teardown.removeScrollListener k))).listeners = []
    apply foldl_applyTeardown_listeners rest
    simp [applyTeardown, h', List.erase_cons_head]

/-! ## Claim theorems -/

/-- C1: `shouldItemRender i` is true iff
`visibleIndexTop ≤ i < visibleIndexTop + visibleLength` for the Position
Index's current window, for every integer `i`; under the window invariant
`0 ≤ visibleIndexTop` and `visibleIndexTop + visibleLength ≤ N`, it is
false for every index outside `[0, N)`. The function is pure by
construction: it reads the window fields and changes no state. -/
theorem shouldItemRender_window_iff (st : WindowedListState) (N i : ℤ)
    (hTop : 0 ≤ st.visibleIndexTop)
    (hLen : st.visibleIndexTop + st.visibleLength ≤ N) :
    (shouldItemRender st i = true ↔
      st.visibleIndexTop ≤ i ∧ i < st.visibleIndexTop + st.visibleLength) ∧
    ((i < 0 ∨ N ≤ i) → shouldItemRender st i = false) := by
  constructor
  · simp only [shouldItemRender, Bool.and_eq_true, decide_eq_true_eq]
  · intro h
    simp only [shouldItemRender, Bool.and_eq_false_iff, decide_eq_false_iff_not]
    omega

/-- C1 witness: window `[2, 5)` inside `N = 10`: index `-1` does not
render, index `4` does. -/
theorem shouldItemRender_window_iff_witness :
    shouldItemRender ⟨2, 3, [], []⟩ (-1) = false ∧
    shouldItemRender ⟨2, 3, [], []⟩ 4 = true :=
  ⟨(shouldItemRender_window_iff ⟨2, 3, [], []⟩ 10 (-1) (by decide) (by decide)).2
      (Or.inl (by decide)),
   (shouldItemRender_window_iff ⟨2, 3, [], []⟩ 10 4 (by decide) (by decide)).1.mpr
      ⟨by decide, by decide⟩⟩

/-- C2 counterexample: the computed `margin-top` string `"auto"` does not
parse as a number, yet the measured height is NaN — not the
margin-defaulted-to-0 value `10` — and that NaN height is exactly what
reaches `updateHeightAtIndex`. The code has no guard that defaults an
unparsable margin's contribution to 0. -/
theorem calcItemDimensions_nan_counterexample :
    parseFloat "auto" = JSNum.nan ∧
    calcItemDimensions (Element.mk 0 "visible" "auto" "0px" [⟨5, 10⟩] none) =
      some { top := 5, height := JSNum.nan } ∧
    calcItemDimensions (Element.mk 0 "visible" "auto" "0px" [⟨5, 10⟩] none) ≠
      some { top := 5, height := JSNum.num 10 } ∧
    (onItemRender ⟨0, [], some ScrollAnchor.window, [], [], ⟨0, 0, [], []⟩⟩ 3
        (some (Element.mk 0 "visible" "auto" "0px" [⟨5, 10⟩] none))).state.heightCalls =
      [(3, JSNum.nan)] := by
  refine ⟨by decide, by decide, by decide, ?_⟩
  rw [onItemRender_state_heightCalls]
  decide

/-- C2 (amended): if either computed margin of a laid-out element fails to
parse, `parseFloat` yields NaN, the measured height is NaN, and that NaN
height is handed to `updateHeightAtIndex`; the margin's contribution is
not defaulted to 0. -/
theorem calcItemDimensions_nan_margin (e : Element) (r : Rect) (rest : List Rect)
    (hr : e.rects = r :: rest)
    (hm : parseFloat e.marginTop = JSNum.nan ∨ parseFloat e.marginBottom = JSNum.nan) :
    calcItemDimensions e = some { top := r.top, height := JSNum.nan } ∧
    ∀ (c : Controller) (i : ℤ),
      (onItemRender c i (some e)).state.heightCalls =
        c.state.heightCalls ++ [(i, JSNum.nan)] := by
  have hadd : (parseFloat e.marginTop).add (parseFloat e.marginBottom) = JSNum.nan := by
    rcases hm with hm | hm
    · rw [hm]
      cases parseFloat e.marginBottom <;> rfl
    · rw [hm]
      cases parseFloat e.marginTop <;> rfl
  have hnum : ∀ q : ℚ, (JSNum.num q).add JSNum.nan = JSNum.nan := fun _ => rfl
  have hcalc : calcItemDimensions e = some { top := r.top, height := JSNum.nan } := by
    simp [calcItemDimensions, hr, hadd, hnum]
  refine ⟨hcalc, fun c i => ?_⟩
  rw [onItemRender_state_heightCalls, hcalc]

/-- C2 (amended) witness: an element with `margin-top: auto` and
`margin-bottom: 0px`, first rectangle top 5 and height 10, measures to a
NaN height and appends `(3, NaN)` to the height trace. -/
theorem calcItemDimensions_nan_margin_witness :
    calcItemDimensions (Element.mk 0 "visible" "auto" "0px" [⟨5, 10⟩] none) =
      some { top := 5, height := JSNum.nan } ∧
    (onItemRender ⟨0, [], some ScrollAnchor.window, [], [], ⟨0, 0, [], []⟩⟩ 3
        (some (Element.mk 0 "visible" "auto" "0px" [⟨5, 10⟩] none))).state.heightCalls =
      [(3, JSNum.nan)] := by
  have h := calcItemDimensions_nan_margin
    (Element.mk 0 "visible" "auto" "0px" [⟨5, 10⟩] none) ⟨5, 10⟩ [] rfl
    (Or.inl (by decide))
  refine ⟨h.1, ?_⟩
  rw [h.2 ⟨0, [], some ScrollAnchor.window, [], [], ⟨0, 0, [], []⟩⟩ 3]
  rfl

/-- C3: the scroll handler forwards exactly `max 0 (S - T)` to the
Position Index's `updateScrollPosition`, where `S` is the raw offset read
from the scroll anchor and `T` the configured `thresholdTop`: one trace
entry is appended and every other part of the controller is unchanged. -/
theorem handleScroll_threshold (env : ScrollEnv) (c : Controller) (S T : ℚ)
    (hS : getScrollTop env c = S) (hT : c.thresholdTop = T) :
    handleScroll env c =
      { c with state :=
          { c.state with scrollCalls := c.state.scrollCalls ++ [max 0 (S - T)] } } := by
  subst hS hT
  rfl

/-- C3 witness: anchor is the viewport, `window.scrollY = 100`,
`thresholdTop = 30`: the one appended offset is `max 0 70 = 70`. -/
theorem handleScroll_threshold_witness :
    handleScroll ⟨100, fun _ => 0⟩
        ⟨30, [], some ScrollAnchor.window, [], [], ⟨0, 0, [], []⟩⟩ =
      ⟨30, [], some ScrollAnchor.window, [], [], ⟨0, 0, [max 0 (100 - 30)], []⟩⟩ :=
  handleScroll_threshold ⟨100, fun _ => 0⟩
    ⟨30, [], some ScrollAnchor.window, [], [], ⟨0, 0, [], []⟩⟩ 100 30 rfl rfl

/-- C4: `onItemRender i null` is a no-op: the controller — stored
dimension table, scroll-parent cache, teardown list, listeners and
Position Index — is returned unchanged, and in particular a previously
recorded measurement for `i` is left intact. -/
theorem onItemRender_null_noop (c : Controller) (i : ℤ) :
    onItemRender c i none = c ∧
    getItemDimensions (onItemRender c i none) i = getItemDimensions c i :=
  ⟨rfl, rfl⟩

/-- C5: measurement reads the first client rectangle. With no rectangle it
returns null and no height reaches the Position Index; with first
rectangle `r` it returns top `r.top` and height
`r.height + parseFloat margin-top + parseFloat margin-bottom`, and exactly
that height is pushed via `updateHeightAtIndex`. -/
theorem onItemRender_measure (c : Controller) (i : ℤ) (e : Element) :
    (e.rects = [] →
      calcItemDimensions e = none ∧
      (onItemRender c i (some e)).state.heightCalls = c.state.heightCalls) ∧
    (∀ (r : Rect) (rest : List Rect), e.rects = r :: rest →
      calcItemDimensions e =
        some { top := r.top,
               height := (JSNum.num r.height).add
                 ((parseFloat e.marginTop).add (parseFloat e.marginBottom)) } ∧
      (onItemRender c i (some e)).state.heightCalls =
        c.state.heightCalls ++
          [(i, (JSNum.num r.height).add
              ((parseFloat e.marginTop).add (parseFloat e.marginBottom)))]) := by
  constructor
  · intro hr
    have hcalc : calcItemDimensions e = none := by
      unfold calcItemDimensions
      rw [hr]
      rfl
    refine ⟨hcalc, ?_⟩
    rw [onItemRender_state_heightCalls, hcalc]
  · intro r rest hr
    have hcalc : calcItemDimensions e =
        some { top := r.top,
               height := (JSNum.num r.height).add
                 ((parseFloat e.marginTop).add (parseFloat e.marginBottom)) } := by
      unfold calcItemDimensions
      rw [hr]
      rfl
    refine ⟨hcalc, ?_⟩
    rw [onItemRender_state_heightCalls, hcalc]

/-- C5 witness: an element with no rectangle measures to null and pushes
nothing; one with rectangle `⟨2, 10⟩` and margins `"4"`, `"6"` measures to
height 20 and pushes exactly `(0, 20)`. -/
theorem onItemRender_measure_witness :
    calcItemDimensions (Element.mk 1 "visible" "4" "6" [] none) = none ∧
    (onItemRender ⟨0, [], some ScrollAnchor.window, [], [], ⟨0, 0, [], []⟩⟩ 0
        (some (Element.mk 1 "visible" "4" "6" [] none))).state.heightCalls = [] ∧
    calcItemDimensions (Element.mk 2 "visible" "4" "6" [⟨2, 10⟩] none) =
      some { top := 2, height := JSNum.num 20 } ∧
    (onItemRender ⟨0, [], some ScrollAnchor.window, [], [], ⟨0, 0, [], []⟩⟩ 0
        (some (Element.mk 2 "visible" "4" "6" [⟨2, 10⟩] none))).state.heightCalls =
      [(0, JSNum.num 20)] := by
  have h1 := (onItemRender_measure
    ⟨0, [], some ScrollAnchor.window, [], [], ⟨0, 0, [], []⟩⟩ 0
    (Element.mk 1 "visible" "4" "6" [] none)).1 rfl
  have h2 := (onItemRender_measure
    ⟨0, [], some ScrollAnchor.window, [], [], ⟨0, 0, [], []⟩⟩ 0
    (Element.mk 2 "visible" "4" "6" [⟨2, 10⟩] none)).2 ⟨2, 10⟩ [] rfl
  refine ⟨h1.1, h1.2, ?_, ?_⟩
  · rw [h2.1]
    simp +decide [parseFloat, takeDigits, digitsToNat, fracVal, JSNum.add,
      Element.marginTop, Element.marginBottom]
    norm_num
  · rw [h2.2]
    simp +decide [parseFloat, takeDigits, digitsToNat, fracVal, JSNum.add,
      Element.marginTop, Element.marginBottom]
    norm_num

/-- C6: anchor discovery returns the first (nearest) ancestor in the chain
whose computed vertical overflow is `auto` or `scroll`, and falls back to
the top-level viewport — by definition not an error case — when the chain
holds no such ancestor: `findScrollParent` coincides with the spec-side
first-scrollable-ancestor function on every chain. -/
theorem findScrollParent_first_scrollable : ∀ n : Option Element,
    findScrollParent n = specScrollAnchor n
  | none => by simp [findScrollParent, specScrollAnchor, ancestorChain]
  | some (Element.mk i ov mt mb rs p) => by
    have ih := findScrollParent_first_scrollable p
    by_cases h1 : ov = "auto"
    · simp [findScrollParent, specScrollAnchor, ancestorChain, isScrollable,
        Element.overflowY, h1]
    · by_cases h2 : ov = "scroll"
      · simp [findScrollParent, specScrollAnchor, ancestorChain, isScrollable,
          Element.overflowY, h1, h2]
      · have hs : isScrollable (Element.mk i ov mt mb rs p) = false := by
          simp [isScrollable, Element.overflowY, h1, h2]
        simp only [findScrollParent, if_neg h1, if_neg h2]
        rw [ih]
        simp only [specScrollAnchor, ancestorChain, List.find?, hs]

/-- C7: scroll-anchor discovery happens exactly on the first non-null
`onItemRender` call (scroll-parent cache still empty): that call caches
`findScrollParent` of the node's DOM parent, attaches one scroll listener
and registers its removal; every later call sees the cache filled and
changes neither cache, listeners nor teardown list. -/
theorem onItemRender_anchor_once (c : Controller) (i : ℤ) (e : Element) :
    (c.scrollParentRef = none →
      (onItemRender c i (some e)).scrollParentRef = some (findScrollParent e.parent) ∧
      (onItemRender c i (some e)).listeners =
        c.listeners ++ [anchorKey (findScrollParent e.parent)] ∧
      (onItemRender c i (some e)).willUnmountFns =
        c.willUnmountFns ++
          [Teardown.removeScrollListener (anchorKey (findScrollParent e.parent))]) ∧
    (∀ a, c.scrollParentRef = some a →
      (onItemRender c i (some e)).scrollParentRef = some a ∧
      (onItemRender c i (some e)).listeners = c.listeners ∧
      (onItemRender c i (some e)).willUnmountFns = c.willUnmountFns) := by
  unfold onItemRender
  constructor
  · intro h
    cases hd : calcItemDimensions e <;>
      simp [h, hd, WindowedListState.updateHeightAtIndex]
  · intro a h
    cases hd : calcItemDimensions e <;>
      simp [h, hd, WindowedListState.updateHeightAtIndex]

/-- C7 witness: with an empty cache the first call stores the discovered
anchor; with a filled cache a call attaches no listener. -/
theorem onItemRender_anchor_once_witness :
    (onItemRender ⟨0, [], none, [], [], ⟨0, 0, [], []⟩⟩ 0
        (some (Element.mk 7 "visible" "0px" "0px" [] none))).scrollParentRef =
      some (findScrollParent (Element.mk 7 "visible" "0px" "0px" [] none).parent) ∧
    (onItemRender ⟨0, [], some ScrollAnchor.window, [], [], ⟨0, 0, [], []⟩⟩ 0
        (some (Element.mk 7 "visible" "0px" "0px" [] none))).listeners = [] :=
  ⟨((onItemRender_anchor_once ⟨0, [], none, [], [], ⟨0, 0, [], []⟩⟩ 0
      (Element.mk 7 "visible" "0px" "0px" [] none)).1 rfl).1,
   ((onItemRender_anchor_once ⟨0, [], some ScrollAnchor.window, [], [], ⟨0, 0, [], []⟩⟩ 0
      (Element.mk 7 "visible" "0px" "0px" [] none)).2 ScrollAnchor.window rfl).2.1⟩

/-- C8: on unmount every registered teardown runs exactly once in
registration order (`unmount` folds `willUnmountFns` left-to-right, as
`forEach` does); when the listener registrations match the registered
removals — the invariant the code maintains, one removal pushed per
listener attached — the scroll listener is detached and a scroll event on
any anchor afterwards leaves the controller, in particular the Position
Index trace, completely unchanged. -/
theorem unmount_detaches (c : Controller)
    (h : c.listeners = c.willUnmountFns.map Teardown.key) :
    (unmount c).listeners = [] ∧
    ∀ (env : ScrollEnv) (k : Option ℕ), dispatchScroll env k (unmount c) = unmount c := by
  have hl : (unmount c).listeners = [] := foldl_applyTeardown_listeners c.willUnmountFns c h
  refine ⟨hl, fun env k => ?_⟩
  unfold dispatchScroll
  rw [hl]
  rfl

/-- C8 witness: a controller holding one viewport listener and its one
registered removal: after unmount the listener list is empty and a
viewport scroll event is a no-op. -/
theorem unmount_detaches_witness :
    (unmount ⟨0, [], some ScrollAnchor.window, [Teardown.removeScrollListener none], [none],
        ⟨0, 0, [], []⟩⟩).listeners = [] ∧
    dispatchScroll ⟨100, fun _ => 0⟩ none
        (unmount ⟨0, [], some ScrollAnchor.window, [Teardown.removeScrollListener none], [none],
          ⟨0, 0, [], []⟩⟩) =
      unmount ⟨0, [], some ScrollAnchor.window, [Teardown.removeScrollListener none], [none],
        ⟨0, 0, [], []⟩⟩ :=
  ⟨(unmount_detaches ⟨0, [], some ScrollAnchor.window, [Teardown.removeScrollListener none],
      [none], ⟨0, 0, [], []⟩⟩ rfl).1,
   (unmount_detaches ⟨0, [], some ScrollAnchor.window, [Teardown.removeScrollListener none],
      [none], ⟨0, 0, [], []⟩⟩ rfl).2 ⟨100, fun _ => 0⟩ none⟩

/-- C9: `getItemDimensions` is total and never yields `undefined`: when
every stored key lies in `[0, N)`, any query outside that range returns
null; so does a query for a key with no entry, and a query for an index
whose last measurement failed (stored null). -/
theorem getItemDimensions_safe (c : Controller) (N i : ℤ)
    (hkeys : ∀ p ∈ c.itemDimensions, 0 ≤ p.1 ∧ p.1 < N) :
    ((i < 0 ∨ N ≤ i) → getItemDimensions c i = none) ∧
    (mapGet c.itemDimensions i = none → getItemDimensions c i = none) ∧
    (mapGet c.itemDimensions i = some none → getItemDimensions c i = none) := by
  refine ⟨?_, ?_, ?_⟩
  · intro hrange
    have hnone : mapGet c.itemDimensions i = none := by
      apply mapGet_eq_none_of_not_mem
      intro p hp
      have := hkeys p hp
      omega
    simp [getItemDimensions, hnone]
  · intro hnone
    simp [getItemDimensions, hnone]
  · intro hsome
    simp [getItemDimensions, hsome]

/-- C9 witness: one entry at index 0 (`N = 1`); querying index `-5`
returns null. -/
theorem getItemDimensions_safe_witness :
    getItemDimensions ⟨0, [(0, some ⟨1, JSNum.num 2⟩)], none, [], [], ⟨0, 0, [], []⟩⟩
      (-5) = none :=
  (getItemDimensions_safe ⟨0, [(0, some ⟨1, JSNum.num 2⟩)], none, [], [], ⟨0, 0, [], []⟩⟩
      1 (-5) (by decide)).1 (Or.inl (by decide))

/-- C10: a non-null remeasurement that fails (no client rectangle)
overwrites a previously stored successful measurement with null —
`getItemDimensions` then returns null — while the Position Index receives
no height update, leaving its entry for the index untouched. -/
theorem onItemRender_failed_overwrites (c : Controller) (i : ℤ) (e : Element)
    (d : ItemDimensions)
    (hprev : mapGet c.itemDimensions i = some (some d))
    (hrects : e.rects = []) :
    mapGet (onItemRender c i (some e)).itemDimensions i = some none ∧
    getItemDimensions (onItemRender c i (some e)) i = none ∧
    (onItemRender c i (some e)).state.heightCalls = c.state.heightCalls := by
  have hcalc : calcItemDimensions e = none := by
    unfold calcItemDimensions
    rw [hrects]
    rfl
  have hmap : mapGet (onItemRender c i (some e)).itemDimensions i = some none := by
    rw [onItemRender_itemDimensions, hcalc]
    exact mapGet_mapSet_self _ _ _
  refine ⟨hmap, ?_, ?_⟩
  · simp [getItemDimensions, hmap]
  · rw [onItemRender_state_heightCalls, hcalc]

/-- C10 witness: index 4 holds a successful measurement; remeasuring with
an element that has no rectangle stores null there and pushes no
height. -/
theorem onItemRender_failed_overwrites_witness :
    mapGet (onItemRender ⟨0, [(4, some ⟨0, JSNum.num 7⟩)], some ScrollAnchor.window, [], [],
        ⟨0, 0, [], []⟩⟩ 4
        (some (Element.mk 9 "visible" "0px" "0px" [] none))).itemDimensions 4 = some none ∧
    getItemDimensions (onItemRender ⟨0, [(4, some ⟨0, JSNum.num 7⟩)], some ScrollAnchor.window,
        [], [], ⟨0, 0, [], []⟩⟩ 4
        (some (Element.mk 9 "visible" "0px" "0px" [] none))) 4 = none :=
  ⟨(onItemRender_failed_overwrites ⟨0, [(4, some ⟨0, JSNum.num 7⟩)], some ScrollAnchor.window,
      [], [], ⟨0, 0, [], []⟩⟩ 4 (Element.mk 9 "visible" "0px" "0px" [] none)
      ⟨0, JSNum.num 7⟩ (by decide) rfl).1,
   (onItemRender_failed_overwrites ⟨0, [(4, some ⟨0, JSNum.num 7⟩)], some ScrollAnchor.window,
      [], [], ⟨0, 0, [], []⟩⟩ 4 (Element.mk 9 "visible" "0px" "0px" [] none)
      ⟨0, JSNum.num 7⟩ (by decide) rfl).2.1⟩

end WindowedList
